import Mathlib

/-!
Verification of the `shareplum` site client (`src/shareplum/site.py`).

The Python code is embedded shallowly:

* Python `dict` values are association lists in first-insertion order
  (`dictGet` / `dictInsert`), matching CPython's insertion-ordered dicts:
  inserting an existing key overwrites the value in place (keys are unique,
  so replacing the first occurrence is exact), a new key is appended at the
  end.
* `requests.Response` is a record of the fields the code reads
  (`status_code`, `text`, `reason`, `url`).  `requests.Response` defines no
  `__eq__`, so Python's `response == 200` falls back to object identity and
  is always `False`; `responseEqNat` embeds that fact.
* `lxml` element trees are the inductive `XElem` (tag, text, attributes,
  children); positional indexing `envelope[i]` is `children[i]?`.
* Fallible Python code (raised exceptions) returns `Except` / sum-like
  outcome types.
-/

set_option autoImplicit false

namespace Shareplum

universe u

/-- Lookup in a Python dict modelled as an association list:
the first entry with the given key (keys are unique by construction). -/
def dictGet {α : Type u} : List (String × α) → String → Option α
  | [], _ => none
  | p :: rest, k => if p.1 == k then some p.2 else dictGet rest k

/-- `d[k] = v` on a Python dict: overwrite in place when the key is present
(keys are unique, so replacing the first occurrence is exact), append at the
end otherwise — CPython keeps the first-insertion position. -/
def dictInsert {α : Type u} : List (String × α) → String → α → List (String × α)
  | [], k, v => [(k, v)]
  | p :: rest, k, v => if p.1 == k then (k, v) :: rest else p :: dictInsert rest k v

theorem dictGet_insert_self {α : Type u} (d : List (String × α)) (k : String) (v : α) :
    dictGet (dictInsert d k v) k = some v := by
  induction d with
  | nil => simp [dictInsert, dictGet]
  | cons p rest ih =>
    by_cases hp : p.1 = k
    · simp [dictInsert, dictGet, hp]
    · simp [dictInsert, dictGet, hp, ih]

theorem dictGet_insert_ne {α : Type u} (d : List (String × α)) (k k' : String) (v : α)
    (h : k' ≠ k) :
    dictGet (dictInsert d k v) k' = dictGet d k' := by
  have hkk' : ¬ (k = k') := fun hh => h hh.symm
  induction d with
  | nil => simp [dictInsert, dictGet, hkk']
  | cons p rest ih =>
    by_cases hp : p.1 = k
    · subst hp
      simp [dictInsert, dictGet, hkk']
    · by_cases hp' : p.1 = k'
      · simp [dictInsert, dictGet, hp, hp', h]
      · simp [dictInsert, dictGet, hp, hp', ih]

instance {ε : Type u} {α : Type u} [DecidableEq ε] [DecidableEq α] :
    DecidableEq (Except ε α) := fun x y =>
  match x, y with
  | .error a, .error b =>
    if h : a = b then isTrue (by rw [h])
    else isFalse (fun hc => by injection hc; contradiction)
  | .ok a, .ok b =>
    if h : a = b then isTrue (by rw [h])
    else isFalse (fun hc => by injection hc; contradiction)
  | .error _, .ok _ => isFalse (fun hc => Except.noConfusion hc)
  | .ok _, .error _ => isFalse (fun hc => Except.noConfusion hc)

/-- Replacement of every non-overlapping occurrence of `pat` in a character
list, left to right, with enough fuel to scan the whole list (structural
recursion on the fuel so the kernel can evaluate it). -/
def replaceFuel (pat rep : List Char) : Nat → List Char → List Char
  | _, [] => []
  | 0, l => l
  | fuel + 1, c :: rest =>
    if pat.isPrefixOf (c :: rest) then
      rep ++ replaceFuel pat rep fuel ((c :: rest).drop pat.length)
    else
      c :: replaceFuel pat rep fuel rest

/-- Python's `s.replace(pat, rep)` for a non-empty pattern: every
non-overlapping occurrence, scanned left to right. -/
def pyReplace (s pat rep : String) : String :=
  ⟨replaceFuel pat.data rep.data s.data.length s.data⟩

/-- The fields of a `requests.Response` that `site.py` reads. -/
structure Response where
  status_code : Nat
  text : String
  reason : String
  url : String
  deriving DecidableEq

/-- Python's `response == 200` where `response` is a `requests.Response`:
the class defines no `__eq__`, `int.__eq__` returns `NotImplemented`, so the
comparison falls back to object identity and is always `False`. -/
def responseEqNat (_r : Response) (_n : Nat) : Bool := false

/-- `requests.Response.raise_for_status`: raises an `HTTPError` whose message
is "<code> Client Error: <reason> for url: <url>" for 4xx and
"<code> Server Error: <reason> for url: <url>" for 5xx; returns without
raising otherwise.  `some msg` models the raised error. -/
def raise_for_status (r : Response) : Option String :=
  if 400 ≤ r.status_code ∧ r.status_code < 500 then
    some (toString r.status_code ++ " Client Error: " ++ r.reason ++ " for url: " ++ r.url)
  else if 500 ≤ r.status_code ∧ r.status_code < 600 then
    some (toString r.status_code ++ " Server Error: " ++ r.reason ++ " for url: " ++ r.url)
  else
    none

/-- Modelled from the spec: the repository's `soap.py` (class `Soap`,
imported by `site.py`) is not under `src/`.  Per spec sections 3 and 4.1 a
SOAP envelope is a method name plus an ordered sequence of (name, value)
parameter pairs, built up in call order. -/
structure Soap where
  method : String
  params : List (String × String)
  deriving DecidableEq

/-- Modelled from the spec: `Soap(method)` starts with no parameters. -/
def Soap.new (method : String) : Soap := ⟨method, []⟩

/-- Modelled from the spec: `add_parameter` appends a (name, value) pair,
keeping call order. -/
def Soap.add_parameter (s : Soap) (name value : String) : Soap :=
  ⟨s.method, s.params ++ [(name, value)]⟩

/-- Modelled from the spec: `str(soap_request)` serializes deterministically
to an XML string with a fixed envelope/body wrapper, the parameters nested
inside a method-named element under the fixed SharePoint SOAP namespace. -/
def Soap.serialize (s : Soap) : String :=
  "<soap:Envelope xmlns:soap=\"http://schemas.xmlsoap.org/soap/envelope/\"><soap:Body><"
    ++ s.method ++ " xmlns=\"http://schemas.microsoft.com/sharepoint/soap/\">"
    ++ String.join (s.params.map (fun p => "<" ++ p.1 ++ ">" ++ p.2 ++ "</" ++ p.1 ++ ">"))
    ++ "</" ++ s.method ++ "></soap:Body></soap:Envelope>"

/-- `Site._services_url`: fixed mapping from logical service name to URL
path suffix. -/
def services_url : List (String × String) :=
  [("Alerts", "/_vti_bin/Alerts.asmx"),
   ("Authentication", "/_vti_bin/Authentication.asmx"),
   ("Copy", "/_vti_bin/Copy.asmx"),
   ("Dws", "/_vti_bin/Dws.asmx"),
   ("Forms", "/_vti_bin/Forms.asmx"),
   ("Imaging", "/_vti_bin/Imaging.asmx"),
   ("DspSts", "/_vti_bin/DspSts.asmx"),
   ("Lists", "/_vti_bin/lists.asmx"),
   ("Meetings", "/_vti_bin/Meetings.asmx"),
   ("People", "/_vti_bin/People.asmx"),
   ("Permissions", "/_vti_bin/Permissions.asmx"),
   ("SiteData", "/_vti_bin/SiteData.asmx"),
   ("Sites", "/_vti_bin/Sites.asmx"),
   ("Search", "/_vti_bin/Search.asmx"),
   ("UserGroup", "/_vti_bin/usergroup.asmx"),
   ("Versions", "/_vti_bin/Versions.asmx"),
   ("Views", "/_vti_bin/Views.asmx"),
   ("WebPartPages", "/_vti_bin/WebPartPages.asmx"),
   ("Webs", "/_vti_bin/Webs.asmx")]

/-- `Site._url(service)`: site URL concatenated with the service suffix.
Every call in `site.py` uses a key present in `services_url`; the `getD ""`
default is unreachable for those calls. -/
def site_service_url (site_url service : String) : String :=
  site_url ++ (dictGet services_url service).getD ""

/-- `Site._headers(soap_action)`. -/
def soap_headers (soap_action : String) : List (String × String) :=
  [("Content-Type", "text/xml; charset=UTF-8"),
   ("SOAPAction", "http://schemas.microsoft.com/sharepoint/soap/" ++ soap_action)]

/-- One HTTP POST issued through `self._session.post`. -/
structure PostRequest where
  url : String
  headers : List (String × String)
  body : String
  deriving DecidableEq

/-- The mutable client state the list-management methods touch:
`self.last_request` and the requests sent over the session. -/
structure SiteState where
  last_request : Option String
  sent : List PostRequest
  deriving DecidableEq

/-- The `template_ids` dict literal inside `add_list` (line 106). -/
def template_ids : List (String × String) :=
  [("Announcements", "104"),
   ("Contacts", "105"),
   ("Custom List", "100"),
   ("Custom List in Datasheet View", "120"),
   ("DataSources", "110"),
   ("Discussion Board", "108"),
   ("Document Library", "101"),
   ("Events", "106"),
   ("Form Library", "115"),
   ("Issues", "1100"),
   ("Links", "103"),
   ("Picture Library", "109"),
   ("Survey", "102"),
   ("Tasks", "107")]

/-- The `template_id` argument of `add_list` as the code dispatches on it:
`type(template_id) == int` or `type(template_id) == str`. -/
inductive TemplateSelector where
  | int (n : Int)
  | str (s : String)

/-- Python `str.isdigit` restricted to ASCII strings (all inputs relevant
here are ASCII): non-empty and every character a decimal digit. -/
def pyIsdigit (s : String) : Bool :=
  !s.data.isEmpty && s.data.all Char.isDigit

/-- The template-selector normalization at the top of `add_list`
(lines 125-131): an int is converted with `str()`, a digit string is kept,
any other string is looked up in `template_ids` — a missing key raises
`KeyError` (modelled as `Except.error` carrying the missing key). -/
def resolve_template_id : TemplateSelector → Except String String
  | .int n => .ok (toString n)
  | .str s =>
    if pyIsdigit s then .ok s
    else match dictGet template_ids s with
      | some v => .ok v
      | none => .error s

/-- The `AddList` envelope `add_list` builds (lines 134-137). -/
def addListSoap (list_name description tid : String) : Soap :=
  (((Soap.new "AddList").add_parameter "listName" list_name).add_parameter
      "description" description).add_parameter "templateID" tid

/-- What `add_list` hands back on its non-raising paths: either
`response.text` or the raw response object. -/
inductive AddListResult where
  | text (s : String)
  | raw (r : Response)
  deriving DecidableEq

/-- `Site.add_list` (lines 87-154).  `resp` is the response the session's
POST returns.  A `KeyError` in template resolution is `Except.error` with
the missing key and happens before the envelope is built, before
`last_request` is set and before the POST — the state is returned
unchanged.  The final branch tests `response == 200`, which compares the
response object to an int and is always false (`responseEqNat`), so the
raw response is returned. -/
def add_list (st : SiteState) (site_url : String) (list_name description : String)
    (template_id : TemplateSelector) (resp : Response) :
    SiteState × Except String AddListResult :=
  match resolve_template_id template_id with
  | .error k => (st, .error k)
  | .ok tid =>
    let soap_request := addListSoap list_name description tid
    let st := { st with last_request := some soap_request.serialize }
    let st := { st with
      sent := st.sent ++ [{ url := site_service_url site_url "Lists",
                            headers := soap_headers "AddList",
                            body := soap_request.serialize }] }
    if responseEqNat resp 200 then
      (st, .ok (.text resp.text))
    else
      (st, .ok (.raw resp))

/-- What `delete_list` does after the POST: return the body, raise the
`HTTPError` from `raise_for_status`, or raise the `RuntimeError` built on
line 178. -/
inductive DeleteListResult where
  | ok (body : String)
  | httpError (msg : String)
  | runtimeError (msg : String)
  deriving DecidableEq

/-- `Site.delete_list` (lines 156-178).  The branch tests `response == 200`
(always false, see `responseEqNat`), so control always reaches
`raise_for_status()`; only when that does not raise (status outside
4xx/5xx) is the `RuntimeError` with status code and body raised. -/
def delete_list (st : SiteState) (site_url list_name : String) (resp : Response) :
    SiteState × DeleteListResult :=
  let soap_request := (Soap.new "DeleteList").add_parameter "listName" list_name
  let st := { st with last_request := some soap_request.serialize }
  let st := { st with
    sent := st.sent ++ [{ url := site_service_url site_url "Lists",
                          headers := soap_headers "DeleteList",
                          body := soap_request.serialize }] }
  if responseEqNat resp 200 then
    (st, .ok resp.text)
  else
    match raise_for_status resp with
    | some e => (st, .httpError e)
    | none =>
      (st, .runtimeError ("Response code: " ++ toString resp.status_code
        ++ ", response: " ++ resp.text))

/-- An `lxml` element: tag, text content, attributes (`.items()`), child
elements in document order.  `envelope[i]` is `children[i]?` (Python raises
`IndexError` when the index is out of range, modelled by `none`). -/
inductive XElem where
  | mk (tag : String) (text : Option String) (attrs : List (String × String))
      (children : List XElem)

def XElem.tag : XElem → String
  | .mk t _ _ _ => t

def XElem.text : XElem → Option String
  | .mk _ t _ _ => t

def XElem.attrs : XElem → List (String × String)
  | .mk _ _ a _ => a

def XElem.children : XElem → List XElem
  | .mk _ _ _ c => c

/-- `item.tag.replace("\x7bhttp://schemas.microsoft.com/sharepoint/soap/\x7d", "")`
(line 204). -/
def stripNS (tag : String) : String :=
  pyReplace tag "\x7bhttp://schemas.microsoft.com/sharepoint/soap/\x7d" ""

/-- The inner dict build of `get_list_collection` (lines 202-206): for each
child `item` of a list element, `_list_data[key] = value` with the
namespace-stripped tag as key and `item.text` as value. -/
def listDataAux (d : List (String × Option String)) :
    List XElem → List (String × Option String)
  | [] => d
  | item :: rest => listDataAux (dictInsert d (stripNS item.tag) item.text) rest

/-- The record one list element flattens to. -/
def listData (l : XElem) : List (String × Option String) :=
  listDataAux [] l.children

/-- Outcomes of `get_list_collection`: the parsed records, the `HTTPError`
from `raise_for_status`, the `RuntimeError` of line 212, or the `IndexError`
from the positional indexing `envelope[0][0][1]`. -/
inductive ListCollectionResult where
  | ok (data : List (List (String × Option String)))
  | httpError (msg : String)
  | runtimeError (msg : String)
  | indexError
  deriving DecidableEq

/-- `Site.get_list_collection` (lines 180-212).  `parsed` is the element
tree `etree.fromstring` yields for `response.text`.  On status 200 the code
takes `envelope[0][0][1]` and flattens each of its children into a record;
otherwise `raise_for_status()` raises, or the `RuntimeError` with status
code and body is raised. -/
def get_list_collection (resp : Response) (parsed : XElem) : ListCollectionResult :=
  if resp.status_code = 200 then
    match parsed.children[0]? with
    | none => .indexError
    | some a =>
      match a.children[0]? with
      | none => .indexError
      | some b =>
        match b.children[1]? with
        | none => .indexError
        | some lists => .ok (lists.children.map listData)
  else
    match raise_for_status resp with
    | some e => .httpError e
    | none =>
      .runtimeError ("Response code: " ++ toString resp.status_code
        ++ ", response: " ++ resp.text)

/-- The row-stripping dict comprehension of `get_users` (line 248):
`\x7bkey[4:]: value for (key, value) in row.items() if key[4:]\x7d`. -/
def stripRowAux (d : List (String × String)) :
    List (String × String) → List (String × String)
  | [] => d
  | kv :: rest =>
    if kv.1.drop 4 == "" then stripRowAux d rest
    else stripRowAux (dictInsert d (kv.1.drop 4) kv.2) rest

/-- The stripped record of one row. -/
def stripRow (attrs : List (String × String)) : List (String × String) :=
  stripRowAux [] attrs

/-- The `"py"` dict comprehension of `get_users` (line 251):
`\x7bi["ImnName"]: i["ID"] + ";#" + i["ImnName"] for i in data\x7d`.
A missing key raises `KeyError` (`Except.error` with the key); the key
expression is evaluated before the value expression. -/
def buildPy (d : List (String × String)) :
    List (List (String × String)) → Except String (List (String × String))
  | [] => .ok d
  | i :: rest =>
    match dictGet i "ImnName" with
    | none => .error "ImnName"
    | some nm =>
      match dictGet i "ID" with
      | none => .error "ID"
      | some id => buildPy (dictInsert d nm (id ++ ";#" ++ nm)) rest

/-- The `"sp"` dict comprehension of `get_users` (line 252):
`\x7bi["ID"] + ";#" + i["ImnName"]: i["ImnName"] for i in data\x7d`. -/
def buildSp (d : List (String × String)) :
    List (List (String × String)) → Except String (List (String × String))
  | [] => .ok d
  | i :: rest =>
    match dictGet i "ID" with
    | none => .error "ID"
    | some id =>
      match dictGet i "ImnName" with
      | none => .error "ImnName"
      | some nm => buildSp (dictInsert d (id ++ ";#" ++ nm) nm) rest

/-- The two-way user cache `get_users` returns. -/
structure Users where
  py : List (String × String)
  sp : List (String × String)
  deriving DecidableEq

/-- The exceptions `get_users` can raise: the two `ConnectionError`s of
lines 238 and 242, a `KeyError` from the dict comprehensions, or an
`IndexError` from `envelope[0][0][0][0][0]`. -/
inductive UsersError where
  | connection (msg : String)
  | keyError (key : String)
  | indexError
  deriving DecidableEq

/-- `listitems = envelope[0][0][0][0][0]` (line 244). -/
def usersListitems (envelope : XElem) : Option XElem := do
  let a ← envelope.children[0]?
  let b ← a.children[0]?
  let c ← b.children[0]?
  let d ← c.children[0]?
  d.children[0]?

/-- The per-row stripped records `data` of `get_users` (lines 245-248). -/
def usersData (listitems : XElem) : List (List (String × String)) :=
  listitems.children.map (fun row => stripRow row.attrs)

/-- The `ImnName` values of the stripped rows, in row order (the keys the
`"py"` comprehension inserts). -/
def pyNames (data : List (List (String × String))) : List String :=
  data.filterMap (fun i => dictGet i "ImnName")

/-- The encoded identity strings `ID;#ImnName` of the stripped rows, in row
order (the keys the `"sp"` comprehension inserts). -/
def spKeys (data : List (List (String × String))) : List String :=
  data.filterMap (fun i =>
    match dictGet i "ID", dictGet i "ImnName" with
    | some id, some nm => some (id ++ ";#" ++ nm)
    | _, _ => none)

/-- `Site.get_users` (lines 214-253).  `status` is the response status and
`parsed` the result of `etree.fromstring` on the body (`Except.error e`
when parsing raises, with `e` the exception text interpolated into the
`ConnectionError` message).  Non-200 and parse failure raise
`ConnectionError`; then the rows are located positionally, stripped, and
the two mappings are built. -/
def get_users (status : Nat) (parsed : Except String XElem) : Except UsersError Users :=
  if status ≠ 200 then
    .error (.connection "GetUsers GetListItems request failed")
  else
    match parsed with
    | .error e =>
      .error (.connection ("GetUsers GetListItems response failed to parse correctly: " ++ e))
    | .ok envelope =>
      match usersListitems envelope with
      | none => .error .indexError
      | some listitems =>
        let data := usersData listitems
        match buildPy [] data with
        | .error k => .error (.keyError k)
        | .ok py =>
          match buildSp [] data with
          | .error k => .error (.keyError k)
          | .ok sp => .ok { py := py, sp := sp }

/-- The session fields `Site.__init__` assigns for authentication
(lines 40-43).  Auth handlers and cookie jars are opaque to `site.py`;
they are modelled as opaque tokens.  A fresh `requests.Session()` has
neither set. -/
structure Session where
  auth : Option String
  cookies : Option String
  deriving DecidableEq

/-- The constructed site client. -/
structure Site where
  site_url : String
  verify_ssl : Bool
  session : Session
  huge_tree : Bool
  timeout : Option Int
  users : Users
  deriving DecidableEq

/-- Modelled from the spec: the `_List` component (`list.py`, imported by
`site.py`) is not under `src/`; per spec section 4.5 the contract with it is
exactly the parameter set `Site.list` passes (lines 262-271). -/
structure ListHandle where
  session : Session
  list_name : String
  verify_ssl : Bool
  users : Users
  huge_tree : Bool
  timeout : Option Int
  exclude_hidden_fields : Bool
  deriving DecidableEq

/-- `Site.__init__` (lines 21-73).  `status`/`parsed` describe the response
to the `get_users` POST the constructor issues at line 73.  When a cookie
jar is supplied it is assigned to the session and the auth argument is never
assigned; otherwise the auth argument is assigned.  The constructor then
performs the user-directory fetch; its error propagates and no `Site` value
exists in that case. -/
def site_init (site_url : String) (auth authcookie : Option String)
    (verify_ssl huge_tree : Bool) (timeout : Option Int)
    (status : Nat) (parsed : Except String XElem) : Except UsersError Site :=
  let session : Session := { auth := none, cookies := none }
  let session :=
    match authcookie with
    | some jar => { session with cookies := some jar }
    | none => { session with auth := auth }
  match get_users status parsed with
  | .error e => .error e
  | .ok users =>
    .ok { site_url := site_url, verify_ssl := verify_ssl, session := session,
          huge_tree := huge_tree, timeout := timeout, users := users }

/-- `Site.list` (lines 256-271): hands the shared session, the populated
user cache and the parsing options to the per-list component. -/
def site_list (s : Site) (list_name : String) (exclude_hidden_fields : Bool) :
    ListHandle :=
  { session := s.session, list_name := list_name, verify_ssl := s.verify_ssl,
    users := s.users, huge_tree := s.huge_tree, timeout := s.timeout,
    exclude_hidden_fields := exclude_hidden_fields }

/-! Concrete element trees used to instantiate the theorems. -/

/-- Wraps a `listitems` element at the position `envelope[0][0][0][0][0]`
where `get_users` looks for it. -/
def wrapUsers (listitems : XElem) : XElem :=
  .mk "Envelope" none []
    [.mk "Body" none []
      [.mk "GetListItemsResponse" none []
        [.mk "GetListItemsResult" none []
          [.mk "listitems" none [] [listitems]]]]]

/-- Two user rows with distinct names and ids. -/
def rowsDistinct : XElem :=
  .mk "data" none []
    [.mk "row" none [("ows_ID", "1"), ("ows_ImnName", "Alice")] [],
     .mk "row" none [("ows_ID", "2"), ("ows_ImnName", "Bob")] []]

/-- Two user rows sharing the display name `Alice` under different ids. -/
def rowsDupName : XElem :=
  .mk "data" none []
    [.mk "row" none [("ows_ID", "1"), ("ows_ImnName", "Alice")] [],
     .mk "row" none [("ows_ID", "2"), ("ows_ImnName", "Alice")] []]

/-- One user row carrying only an `ows_Title` attribute. -/
def rowsTitleOnly : XElem :=
  .mk "data" none []
    [.mk "row" none [("ows_Title", "Only a title")] []]

/-- A `GetListCollection` response tree: the list collection sits at
`envelope[0][0][1]` and holds two list elements with three namespaced
fields each. -/
def envListCollection : XElem :=
  .mk "Envelope" none []
    [.mk "Body" none []
      [.mk "GetListCollectionResponse" none []
        [.mk "GetListCollectionResult" none [] [],
         .mk "Lists" none []
          [.mk "List" none []
            [.mk "\x7bhttp://schemas.microsoft.com/sharepoint/soap/\x7dTitle" (some "Docs") [] [],
             .mk "\x7bhttp://schemas.microsoft.com/sharepoint/soap/\x7dInternalName" (some "docs-guid") [] [],
             .mk "\x7bhttp://schemas.microsoft.com/sharepoint/soap/\x7dBaseType" (some "1") [] []],
           .mk "List" none []
            [.mk "\x7bhttp://schemas.microsoft.com/sharepoint/soap/\x7dTitle" (some "Tasks") [] [],
             .mk "\x7bhttp://schemas.microsoft.com/sharepoint/soap/\x7dInternalName" (some "tasks-guid") [] [],
             .mk "\x7bhttp://schemas.microsoft.com/sharepoint/soap/\x7dBaseType" (some "0") [] []]]]]]

/-! Helper lemmas about the dict-building recursions. -/

theorem listDataAux_get_not_mem (k : String) :
    ∀ (cs : List XElem) (d : List (String × Option String)),
      k ∉ cs.map (fun c => stripNS c.tag) →
      dictGet (listDataAux d cs) k = dictGet d k := by
  intro cs
  induction cs with
  | nil => intro d _; rfl
  | cons c rest ih =>
    intro d h
    have h1 : k ≠ stripNS c.tag := fun hh => h (by simp [hh])
    have h2 : k ∉ rest.map (fun c => stripNS c.tag) := fun hh => h (by simp [hh])
    show dictGet (listDataAux (dictInsert d (stripNS c.tag) c.text) rest) k = dictGet d k
    rw [ih _ h2, dictGet_insert_ne _ _ _ _ h1]

theorem listDataAux_get_mem (c : XElem) :
    ∀ (cs : List XElem) (d : List (String × Option String)),
      (cs.map (fun x => stripNS x.tag)).Nodup → c ∈ cs →
      dictGet (listDataAux d cs) (stripNS c.tag) = some c.text := by
  intro cs
  induction cs with
  | nil => intro d _ hc; cases hc
  | cons c' rest ih =>
    intro d hnd hc
    rw [List.map_cons, List.nodup_cons] at hnd
    obtain ⟨hn1, hn2⟩ := hnd
    rcases List.mem_cons.mp hc with hceq | hcmem
    · cases hceq
      show dictGet (listDataAux (dictInsert d (stripNS c.tag) c.text) rest) (stripNS c.tag)
        = some c.text
      rw [listDataAux_get_not_mem _ _ _ hn1, dictGet_insert_self]
    · show dictGet (listDataAux (dictInsert d (stripNS c'.tag) c'.text) rest) (stripNS c.tag)
        = some c.text
      exact ih _ hn2 hcmem

theorem stripRowAux_get_empty :
    ∀ (attrs : List (String × String)) (d : List (String × String)),
      dictGet d "" = none → dictGet (stripRowAux d attrs) "" = none := by
  intro attrs
  induction attrs with
  | nil => intro d h; exact h
  | cons kv rest ih =>
    intro d h
    simp only [stripRowAux]
    by_cases hk : kv.1.drop 4 = ""
    · rw [if_pos (by simpa using hk)]
      exact ih _ h
    · rw [if_neg (by simpa using hk)]
      exact ih _ (by rw [dictGet_insert_ne _ _ _ _ (fun hh => hk hh.symm)]; exact h)

theorem stripRowAux_get_not_mem (k : String) :
    ∀ (attrs : List (String × String)) (d : List (String × String)),
      k ∉ attrs.map (fun kv => kv.1.drop 4) →
      dictGet (stripRowAux d attrs) k = dictGet d k := by
  intro attrs
  induction attrs with
  | nil => intro d _; rfl
  | cons kv rest ih =>
    intro d h
    have h1 : k ≠ kv.1.drop 4 := fun hh => h (by simp [hh])
    have h2 : k ∉ rest.map (fun kv => kv.1.drop 4) := fun hh => h (by simp [hh])
    simp only [stripRowAux]
    by_cases hk : kv.1.drop 4 = ""
    · rw [if_pos (by simpa using hk)]
      exact ih _ h2
    · rw [if_neg (by simpa using hk), ih _ h2, dictGet_insert_ne _ _ _ _ h1]

theorem stripRowAux_get_mem (kv : String × String) :
    ∀ (attrs : List (String × String)) (d : List (String × String)),
      dictGet d "" = none →
      (attrs.map (fun x => x.1.drop 4)).Nodup → kv ∈ attrs →
      dictGet (stripRowAux d attrs) (kv.1.drop 4)
        = if kv.1.drop 4 = "" then none else some kv.2 := by
  intro attrs
  induction attrs with
  | nil => intro d _ _ hc; cases hc
  | cons kv' rest ih =>
    intro d hd hnd hc
    rw [List.map_cons, List.nodup_cons] at hnd
    obtain ⟨hn1, hn2⟩ := hnd
    rcases List.mem_cons.mp hc with hceq | hcmem
    · cases hceq
      simp only [stripRowAux]
      by_cases hk : kv.1.drop 4 = ""
      · rw [if_pos (by simpa using hk), if_pos hk, hk]
        exact stripRowAux_get_empty _ _ hd
      · rw [if_neg (by simpa using hk), if_neg hk,
          stripRowAux_get_not_mem _ _ _ hn1, dictGet_insert_self]
    · simp only [stripRowAux]
      by_cases hk' : kv'.1.drop 4 = ""
      · rw [if_pos (by simpa using hk')]
        exact ih _ hd hn2 hcmem
      · rw [if_neg (by simpa using hk')]
        refine ih _ ?_ hn2 hcmem
        rw [dictGet_insert_ne _ _ _ _ (fun hh => hk' hh.symm)]
        exact hd

theorem buildPy_get_not_mem (k : String) :
    ∀ (data : List (List (String × String))) (d py : List (String × String)),
      buildPy d data = .ok py → k ∉ pyNames data → dictGet py k = dictGet d k := by
  intro data
  induction data with
  | nil =>
    intro d py h _
    injection h with h
    rw [h]
  | cons i rest ih =>
    intro d py h hk
    cases hnm : dictGet i "ImnName" with
    | none => rw [buildPy, hnm] at h; cases h
    | some nm =>
      cases hid : dictGet i "ID" with
      | none => rw [buildPy, hnm, hid] at h; cases h
      | some id =>
        rw [buildPy, hnm, hid] at h
        have hk1 : k ≠ nm := by
          intro hh
          exact hk (by simp [pyNames, List.filterMap_cons, hnm, hh])
        have hk2 : k ∉ pyNames rest := by
          intro hh
          exact hk (by simp [pyNames, List.filterMap_cons, hnm]; right; simpa [pyNames] using hh)
        rw [ih _ _ h hk2, dictGet_insert_ne _ _ _ _ hk1]

theorem buildPy_get_mem (i0 : List (String × String)) (nm id : String) :
    ∀ (data : List (List (String × String))) (d py : List (String × String)),
      buildPy d data = .ok py → (pyNames data).Nodup → i0 ∈ data →
      dictGet i0 "ImnName" = some nm → dictGet i0 "ID" = some id →
      dictGet py nm = some (id ++ ";#" ++ nm) := by
  intro data
  induction data with
  | nil => intro d py _ _ hc; cases hc
  | cons i rest ih =>
    intro d py h hnd hc hnm0 hid0
    cases hnm : dictGet i "ImnName" with
    | none => rw [buildPy, hnm] at h; cases h
    | some nm' =>
      cases hid : dictGet i "ID" with
      | none => rw [buildPy, hnm, hid] at h; cases h
      | some id' =>
        rw [buildPy, hnm, hid] at h
        have hnd' : (pyNames (i :: rest)) = nm' :: pyNames rest := by
          simp [pyNames, List.filterMap_cons, hnm]
        rw [hnd', List.nodup_cons] at hnd
        obtain ⟨hn1, hn2⟩ := hnd
        rcases List.mem_cons.mp hc with hceq | hcmem
        · cases hceq
          rw [hnm0] at hnm
          rw [hid0] at hid
          injection hnm with hnm
          injection hid with hid
          cases hnm
          cases hid
          rw [buildPy_get_not_mem _ _ _ _ h hn1, dictGet_insert_self]
        · exact ih _ _ h hn2 hcmem hnm0 hid0

theorem buildSp_get_not_mem (k : String) :
    ∀ (data : List (List (String × String))) (d sp : List (String × String)),
      buildSp d data = .ok sp → k ∉ spKeys data → dictGet sp k = dictGet d k := by
  intro data
  induction data with
  | nil =>
    intro d sp h _
    injection h with h
    rw [h]
  | cons i rest ih =>
    intro d sp h hk
    cases hid : dictGet i "ID" with
    | none => rw [buildSp, hid] at h; cases h
    | some id =>
      cases hnm : dictGet i "ImnName" with
      | none => rw [buildSp, hid, hnm] at h; cases h
      | some nm =>
        rw [buildSp, hid, hnm] at h
        have hkey : spKeys (i :: rest) = (id ++ ";#" ++ nm) :: spKeys rest := by
          simp [spKeys, List.filterMap_cons, hid, hnm]
        rw [hkey] at hk
        have hk1 : k ≠ id ++ ";#" ++ nm := fun hh => hk (by simp [hh])
        have hk2 : k ∉ spKeys rest := fun hh => hk (by simp [hh])
        rw [ih _ _ h hk2, dictGet_insert_ne _ _ _ _ hk1]

theorem buildSp_get_mem (i0 : List (String × String)) (nm id : String) :
    ∀ (data : List (List (String × String))) (d sp : List (String × String)),
      buildSp d data = .ok sp → (spKeys data).Nodup → i0 ∈ data →
      dictGet i0 "ImnName" = some nm → dictGet i0 "ID" = some id →
      dictGet sp (id ++ ";#" ++ nm) = some nm := by
  intro data
  induction data with
  | nil => intro d sp _ _ hc; cases hc
  | cons i rest ih =>
    intro d sp h hnd hc hnm0 hid0
    cases hid : dictGet i "ID" with
    | none => rw [buildSp, hid] at h; cases h
    | some id' =>
      cases hnm : dictGet i "ImnName" with
      | none => rw [buildSp, hid, hnm] at h; cases h
      | some nm' =>
        rw [buildSp, hid, hnm] at h
        have hkey : spKeys (i :: rest) = (id' ++ ";#" ++ nm') :: spKeys rest := by
          simp [spKeys, List.filterMap_cons, hid, hnm]
        rw [hkey, List.nodup_cons] at hnd
        obtain ⟨hn1, hn2⟩ := hnd
        rcases List.mem_cons.mp hc with hceq | hcmem
        · cases hceq
          rw [hnm0] at hnm
          rw [hid0] at hid
          injection hnm with hnm
          injection hid with hid
          cases hnm
          cases hid
          rw [buildSp_get_not_mem _ _ _ _ h hn1, dictGet_insert_self]
        · exact ih _ _ h hn2 hcmem hnm0 hid0

theorem buildPy_error_of_missing (i0 : List (String × String)) :
    ∀ (data : List (List (String × String))) (d : List (String × String)),
      i0 ∈ data →
      (dictGet i0 "ImnName" = none ∨ dictGet i0 "ID" = none) →
      ∃ k, buildPy d data = .error k := by
  intro data
  induction data with
  | nil => intro d hc _; cases hc
  | cons i rest ih =>
    intro d hmem hmiss
    cases hnm : dictGet i "ImnName" with
    | none => exact ⟨"ImnName", by rw [buildPy, hnm]⟩
    | some nm =>
      cases hid : dictGet i "ID" with
      | none => exact ⟨"ID", by rw [buildPy, hnm, hid]⟩
      | some id =>
        rcases List.mem_cons.mp hmem with hceq | hcmem
        · exfalso
          cases hceq
          rcases hmiss with hm | hm
          · rw [hnm] at hm; cases hm
          · rw [hid] at hm; cases hm
        · obtain ⟨k, hk⟩ := ih (dictInsert d nm (id ++ ";#" ++ nm)) hcmem hmiss
          exact ⟨k, by simp only [buildPy, hnm, hid]; exact hk⟩

/-! The claims. -/

/-- Claim C1 (code bug in the source): the spec says `delete_list` returns
the body text on HTTP 200 and otherwise raises an error carrying status code
and body.  The code compares the response object itself to the int `200`
(always false), so on a 200 response it falls through to the
`RuntimeError`, and on a 404 `raise_for_status()` raises an `HTTPError`
whose message has the status code but not the body text. -/
theorem delete_list_response_eq_bug :
    (delete_list { last_request := none, sent := [] } "http://sp.example" "Announcements"
        { status_code := 200, text := "deleted-ok", reason := "OK",
          url := "http://sp.example/_vti_bin/lists.asmx" }).2
      = .runtimeError "Response code: 200, response: deleted-ok"
    ∧ (delete_list { last_request := none, sent := [] } "http://sp.example" "Announcements"
        { status_code := 404, text := "List does not exist", reason := "Not Found",
          url := "http://sp.example/_vti_bin/lists.asmx" }).2
      = .httpError "404 Client Error: Not Found for url: http://sp.example/_vti_bin/lists.asmx" := by
  exact ⟨by decide, by decide⟩

/-- Claim C2 (code bug in the source): the spec says `add_list` returns the
response body text on HTTP success.  The code's `response == 200` compares
the response object to an int and is always false, so even a 200 success
returns the raw response object, never the body text. -/
theorem add_list_returns_raw_on_success :
    (add_list { last_request := none, sent := [] } "http://sp.example" "NewList" "desc"
        (.int 100) { status_code := 200, text := "created-ok", reason := "OK", url := "u" }).2
      = .ok (.raw { status_code := 200, text := "created-ok", reason := "OK", url := "u" })
    ∧ AddListResult.raw { status_code := 200, text := "created-ok", reason := "OK", url := "u" }
        ≠ .text "created-ok" := by
  exact ⟨by decide, by decide⟩

/-- Claim C3: for a template representable as an int `n`, as the digit
string `s = str(n)`, and as a display name `name` mapped to `s` by the
template table, `add_list` behaves identically on all three selector forms
and places `s` into the `templateID` parameter of the `AddList` envelope. -/
theorem add_list_template_three_forms (n : Int) (name s : String)
    (hn : toString n = s) (hdig : pyIsdigit s = true)
    (hname : pyIsdigit name = false)
    (htab : dictGet template_ids name = some s) :
    resolve_template_id (.int n) = .ok s
    ∧ resolve_template_id (.str s) = .ok s
    ∧ resolve_template_id (.str name) = .ok s
    ∧ ∀ (st : SiteState) (site_url ln d : String) (resp : Response),
        add_list st site_url ln d (.int n) resp = add_list st site_url ln d (.str s) resp
        ∧ add_list st site_url ln d (.str name) resp = add_list st site_url ln d (.str s) resp
        ∧ ("templateID", s) ∈ (addListSoap ln d s).params
        ∧ (add_list st site_url ln d (.str s) resp).1.last_request
            = some (addListSoap ln d s).serialize := by
  have h1 : resolve_template_id (.int n) = .ok s := by
    simp [resolve_template_id, hn]
  have h2 : resolve_template_id (.str s) = .ok s := by
    simp [resolve_template_id, hdig]
  have h3 : resolve_template_id (.str name) = .ok s := by
    simp [resolve_template_id, hname, htab]
  refine ⟨h1, h2, h3, fun st site_url ln d resp => ⟨?_, ?_, ?_, ?_⟩⟩
  · simp only [add_list, h1, h2]
  · simp only [add_list, h2, h3]
  · simp [addListSoap, Soap.add_parameter, Soap.new]
  · simp [add_list, h2, responseEqNat]

theorem add_list_template_three_forms_witness :
    resolve_template_id (.int 101) = .ok "101"
    ∧ resolve_template_id (.str "101") = .ok "101"
    ∧ resolve_template_id (.str "Document Library") = .ok "101"
    ∧ ("templateID", "101") ∈ (addListSoap "My Docs" "docs" "101").params := by
  have h := add_list_template_three_forms 101 "Document Library" "101"
    (by decide) (by decide) (by decide) (by decide)
  exact ⟨h.1, h.2.1, h.2.2.1,
    (h.2.2.2 { last_request := none, sent := [] } "http://sp.example" "My Docs" "docs"
      { status_code := 200, text := "", reason := "OK", url := "u" }).2.2.1⟩

/-- Claim C4: a string template selector that is neither all digits nor a
key of the template table makes `add_list` raise a `KeyError` carrying that
key, with the client state returned untouched — `last_request` unchanged and
no HTTP request issued. -/
theorem add_list_unknown_template (st : SiteState) (site_url ln d s : String)
    (resp : Response)
    (hnd : pyIsdigit s = false) (hmiss : dictGet template_ids s = none) :
    add_list st site_url ln d (.str s) resp = (st, .error s) := by
  simp [add_list, resolve_template_id, hnd, hmiss]

theorem add_list_unknown_template_witness :
    add_list { last_request := none, sent := [] } "http://sp.example" "L" "desc"
        (.str "Nonexistent Template")
        { status_code := 200, text := "", reason := "OK", url := "u" }
      = ({ last_request := none, sent := [] }, .error "Nonexistent Template") := by
  exact add_list_unknown_template _ _ _ _ _ _ (by decide) (by decide)

/-- Claim C5 counterexample: the template table does not have 18 entries. -/
theorem template_ids_not_eighteen : ¬ template_ids.length = 18 := by
  decide

/-- Claim C5 (amended): the static template table of `add_list` is fixed
and contains exactly 14 entries, with pairwise distinct names. -/
theorem template_ids_fourteen :
    template_ids.length = 14 ∧ (template_ids.map Prod.fst).Nodup := by
  exact ⟨by decide, by decide⟩

/-- Claim C6: on a 200 response whose parsed envelope has the list
collection at `envelope[0][0][1]`, `get_list_collection` returns one record
per list element; each record maps every child element's namespace-stripped
tag (when the stripped tags of the element are distinct) to that element's
text. -/
theorem get_list_collection_records (resp : Response) (parsed a b lists : XElem)
    (h200 : resp.status_code = 200)
    (ha : parsed.children[0]? = some a)
    (hb : a.children[0]? = some b)
    (hl : b.children[1]? = some lists) :
    get_list_collection resp parsed = .ok (lists.children.map listData)
    ∧ ∀ l ∈ lists.children,
        (l.children.map (fun c => stripNS c.tag)).Nodup →
        ∀ c ∈ l.children, dictGet (listData l) (stripNS c.tag) = some c.text := by
  constructor
  · simp [get_list_collection, h200, ha, hb, hl]
  · intro l _ hnd c hc
    exact listDataAux_get_mem c l.children [] hnd hc

theorem get_list_collection_records_witness :
    get_list_collection { status_code := 200, text := "body", reason := "OK", url := "u" }
        envListCollection
      = .ok [[("Title", some "Docs"), ("InternalName", some "docs-guid"), ("BaseType", some "1")],
             [("Title", some "Tasks"), ("InternalName", some "tasks-guid"), ("BaseType", some "0")]] := by
  have h := get_list_collection_records
    { status_code := 200, text := "body", reason := "OK", url := "u" }
    envListCollection _ _ _ rfl rfl rfl rfl
  exact h.1.trans (by decide)

/-- Claim C7 counterexample: two parsed rows with the same `ImnName`
(`Alice`) under different ids.  The `py` map keeps only the last row's
identity string, so the row-by-row inverse property fails:
`py[sp["1;#Alice"]] = "2;#Alice" ≠ "1;#Alice"`, and `py` does not send
row 1's `ImnName` to row 1's identity string. -/
theorem get_users_duplicate_name_not_inverse :
    get_users 200 (Except.ok (wrapUsers rowsDupName))
      = Except.ok { py := [("Alice", "2;#Alice")],
                    sp := [("1;#Alice", "Alice"), ("2;#Alice", "Alice")] }
    ∧ dictGet [("1;#Alice", "Alice"), ("2;#Alice", "Alice")] "1;#Alice" = some "Alice"
    ∧ dictGet [("Alice", "2;#Alice")] "Alice" = some "2;#Alice"
    ∧ ("2;#Alice" : String) ≠ "1;#Alice" := by
  exact ⟨by decide, by decide, by decide, by decide⟩

/-- Claim C7 (amended): for a successfully parsed `get_users` response,
every attribute key is stripped of its first 4 characters and only keys
that remain non-empty are kept; and provided the rows' `ImnName` values are
pairwise distinct and the rows' encoded `ID;#ImnName` strings are pairwise
distinct, the two returned mappings are mutual inverses row by row. -/
theorem get_users_strip_and_inverse (envelope listitems : XElem) (u : Users)
    (hli : usersListitems envelope = some listitems)
    (hok : get_users 200 (Except.ok envelope) = Except.ok u)
    (hnames : (pyNames (usersData listitems)).Nodup)
    (hkeys : (spKeys (usersData listitems)).Nodup) :
    (∀ i ∈ usersData listitems, ∀ nm id,
        dictGet i "ImnName" = some nm → dictGet i "ID" = some id →
        dictGet u.py nm = some (id ++ ";#" ++ nm)
        ∧ dictGet u.sp (id ++ ";#" ++ nm) = some nm
        ∧ (dictGet u.py nm).bind (fun x => dictGet u.sp x) = some nm
        ∧ (dictGet u.sp (id ++ ";#" ++ nm)).bind (fun x => dictGet u.py x)
            = some (id ++ ";#" ++ nm))
    ∧ (∀ attrs : List (String × String),
        (attrs.map (fun kv => kv.1.drop 4)).Nodup →
        ∀ kv ∈ attrs, dictGet (stripRow attrs) (kv.1.drop 4)
          = if kv.1.drop 4 = "" then none else some kv.2) := by
  have hshape : ∃ py sp, buildPy [] (usersData listitems) = .ok py
      ∧ buildSp [] (usersData listitems) = .ok sp ∧ u = { py := py, sp := sp } := by
    rw [get_users] at hok
    simp only [if_neg (by simp : ¬ (200 : Nat) ≠ 200), hli] at hok
    cases hpy : buildPy [] (usersData listitems) with
    | error k => rw [hpy] at hok; cases hok
    | ok py =>
      cases hsp : buildSp [] (usersData listitems) with
      | error k => rw [hpy, hsp] at hok; cases hok
      | ok sp =>
        rw [hpy, hsp] at hok
        injection hok with hok
        exact ⟨py, sp, rfl, rfl, hok.symm⟩
  obtain ⟨py, sp, hpy, hsp, hu⟩ := hshape
  constructor
  · intro i hi nm id hnm hid
    have hpyget : dictGet py nm = some (id ++ ";#" ++ nm) :=
      buildPy_get_mem i nm id (usersData listitems) [] py hpy hnames hi hnm hid
    have hspget : dictGet sp (id ++ ";#" ++ nm) = some nm :=
      buildSp_get_mem i nm id (usersData listitems) [] sp hsp hkeys hi hnm hid
    rw [hu]
    exact ⟨hpyget, hspget, by rw [hpyget]; simpa using hspget,
      by rw [hspget]; simpa using hpyget⟩
  · intro attrs hnd kv hkv
    exact stripRowAux_get_mem kv attrs [] rfl hnd hkv

theorem get_users_strip_and_inverse_witness :
    dictGet [("Alice", "1;#Alice"), ("Bob", "2;#Bob")] "Alice" = some "1;#Alice"
    ∧ dictGet [("1;#Alice", "Alice"), ("2;#Bob", "Bob")] "1;#Alice" = some "Alice" := by
  have h := get_users_strip_and_inverse (wrapUsers rowsDistinct) rowsDistinct
    { py := [("Alice", "1;#Alice"), ("Bob", "2;#Bob")],
      sp := [("1;#Alice", "Alice"), ("2;#Bob", "Bob")] }
    rfl (by decide) (by decide) (by decide)
  have h1 := h.1 (stripRow [("ows_ID", "1"), ("ows_ImnName", "Alice")]) (by decide)
    "Alice" "1" (by decide) (by decide)
  exact ⟨h1.1, h1.2.1⟩

/-- A successfully parsed 200 response never yields a connection error:
the remaining failure modes of `get_users` are `IndexError` and
`KeyError`. -/
theorem get_users_ok_no_connection (env : XElem) (m : String) :
    get_users 200 (Except.ok env) ≠ Except.error (.connection m) := by
  rw [get_users]
  simp only [if_neg (by simp : ¬ (200 : Nat) ≠ 200)]
  cases hp : usersListitems env with
  | none => simp
  | some li =>
    cases hpy : buildPy [] (usersData li) with
    | error k => simp [hpy]
    | ok py =>
      cases hsp : buildSp [] (usersData li) with
      | error k => simp [hpy, hsp]
      | ok sp => simp [hpy, hsp]

/-- Claim C8: `get_users` raises a connection-kind error exactly when the
status is not 200 or the body fails to parse, and the parse-failure message
preserves the underlying parse error text. -/
theorem get_users_connection_error_iff (status : Nat) (parsed : Except String XElem) :
    ((∃ m, get_users status parsed = Except.error (.connection m))
      ↔ (status ≠ 200 ∨ ∃ e, parsed = Except.error e))
    ∧ ∀ e, get_users 200 (Except.error e)
        = Except.error (.connection
            ("GetUsers GetListItems response failed to parse correctly: " ++ e)) := by
  constructor
  · by_cases h200 : status = 200
    · subst h200
      cases parsed with
      | error e =>
        constructor
        · intro _
          exact Or.inr ⟨e, rfl⟩
        · intro _
          exact ⟨"GetUsers GetListItems response failed to parse correctly: " ++ e,
            by simp [get_users]⟩
      | ok env =>
        constructor
        · rintro ⟨m, hm⟩
          exact absurd hm (get_users_ok_no_connection env m)
        · rintro (h | ⟨e, he⟩)
          · exact absurd rfl h
          · cases he
    · constructor
      · intro _
        exact Or.inl h200
      · intro _
        exact ⟨"GetUsers GetListItems request failed",
          by unfold get_users; rw [if_pos h200]⟩
  · intro e
    simp [get_users]

/-- Claim C10: when the rows are located and some row's stripped record
lacks `ImnName` or `ID`, `get_users` raises a missing-key `KeyError` — not
the connection error — even though the HTTP status was 200 and the XML
parsed. -/
theorem get_users_missing_key_raises (envelope listitems row : XElem)
    (hli : usersListitems envelope = some listitems)
    (hrow : row ∈ listitems.children)
    (hmiss : dictGet (stripRow row.attrs) "ImnName" = none
      ∨ dictGet (stripRow row.attrs) "ID" = none) :
    ∃ k, get_users 200 (Except.ok envelope) = Except.error (.keyError k) := by
  have hmem : stripRow row.attrs ∈ usersData listitems := by
    exact List.mem_map_of_mem _ hrow
  obtain ⟨k, hk⟩ := buildPy_error_of_missing (stripRow row.attrs)
    (usersData listitems) [] hmem hmiss
  refine ⟨k, ?_⟩
  rw [get_users]
  simp only [if_neg (by simp : ¬ (200 : Nat) ≠ 200), hli, hk]

theorem get_users_missing_key_raises_witness :
    ∃ k, get_users 200 (Except.ok (wrapUsers rowsTitleOnly))
      = Except.error (.keyError k) := by
  exact get_users_missing_key_raises (wrapUsers rowsTitleOnly) rowsTitleOnly
    (.mk "row" none [("ows_Title", "Only a title")] []) rfl
    (List.Mem.head _) (Or.inl (by decide))

/-- Claim C9: construction installs exactly one authentication mode — a
supplied cookie jar is assigned and the auth argument ignored, and only
without a cookie jar is the auth handler assigned — then immediately
performs the user-directory fetch: its error propagates (no site value
exists), and on success the user cache of every list handle created from
the site is the fetched cache. -/
theorem site_init_modes_and_users (site_url : String) (auth authcookie : Option String)
    (verify_ssl huge_tree : Bool) (timeout : Option Int)
    (status : Nat) (parsed : Except String XElem) :
    (∀ e, get_users status parsed = Except.error e →
        site_init site_url auth authcookie verify_ssl huge_tree timeout status parsed
          = Except.error e)
    ∧ (∀ us, get_users status parsed = Except.ok us →
        ∃ site,
          site_init site_url auth authcookie verify_ssl huge_tree timeout status parsed
            = Except.ok site
          ∧ site.users = us
          ∧ (∀ jar, authcookie = some jar →
              site.session.cookies = some jar ∧ site.session.auth = none)
          ∧ (authcookie = none →
              site.session.auth = auth ∧ site.session.cookies = none)
          ∧ ∀ ln ehf, (site_list site ln ehf).users = us) := by
  constructor
  · intro e he
    simp [site_init, he]
  · intro us hus
    cases authcookie with
    | some jar =>
      refine ⟨{ site_url := site_url, verify_ssl := verify_ssl,
                session := { auth := none, cookies := some jar },
                huge_tree := huge_tree, timeout := timeout, users := us },
              by simp [site_init, hus], rfl, ?_, ?_, fun ln ehf => rfl⟩
      · intro jar' hj
        injection hj with hj
        cases hj
        exact ⟨rfl, rfl⟩
      · intro hnone
        cases hnone
    | none =>
      refine ⟨{ site_url := site_url, verify_ssl := verify_ssl,
                session := { auth := auth, cookies := none },
                huge_tree := huge_tree, timeout := timeout, users := us },
              by simp [site_init, hus], rfl, ?_, ?_, fun ln ehf => rfl⟩
      · intro jar' hj
        cases hj
      · intro _
        exact ⟨rfl, rfl⟩

theorem site_init_modes_and_users_witness :
    ∃ site, site_init "http://sp.example" (some "basic-auth") (some "cookie-jar")
        true false none 200 (Except.ok (wrapUsers rowsDistinct)) = Except.ok site
      ∧ site.users = { py := [("Alice", "1;#Alice"), ("Bob", "2;#Bob")],
                       sp := [("1;#Alice", "Alice"), ("2;#Bob", "Bob")] }
      ∧ site.session.cookies = some "cookie-jar"
      ∧ site.session.auth = none := by
  have h := (site_init_modes_and_users "http://sp.example" (some "basic-auth")
      (some "cookie-jar") true false none 200 (Except.ok (wrapUsers rowsDistinct))).2
    { py := [("Alice", "1;#Alice"), ("Bob", "2;#Bob")],
      sp := [("1;#Alice", "Alice"), ("2;#Bob", "Bob")] }
    (by decide)
  obtain ⟨site, h1, h2, h3, _, _⟩ := h
  exact ⟨site, h1, h2, (h3 "cookie-jar" rfl).1, (h3 "cookie-jar" rfl).2⟩

end Shareplum
